import Mathlib

set_option maxRecDepth 100000

/-!
Verification of the llm-poemer bot (`main.py`) against its specification.

The program fetches forum text, turns it into a poem via an LLM backend,
and dispatches the poem to optional notification sinks (Slack, Bluesky).
External collaborators (HTTP transport, LLM providers, the forum API,
environment loading) appear only through their request/response values;
everything the code of the repository itself does with those values is embedded
below, definition by definition, following `main.py`.

Conventions:
* Python strings are `String`; Python `None` is `Option.none`.
* Python exceptions are the `Except.error` branch of `Except String α`;
  a normal return is `Except.ok`.
* A parsed JSON object body is an association list `List (String × JVal)`;
  Python `d[k]` raises `KeyError` when the key is absent.
-/

/-- A JSON value, as far as the bot inspects response bodies. -/
inductive JVal where
  | bool (b : Bool)
  | str (s : String)
  | num (n : Int)
  | null
deriving DecidableEq

/-- Python truthiness of a JSON value (`if response.json()["ok"]:`). -/
def pyTruthy : JVal → Bool
  | .bool b => b
  | .str s => s ≠ ""
  | .num n => n ≠ 0
  | .null => false

/-- An HTTP response as the Slack sink inspects it: its status code and its
parsed JSON object body (`response.json()`). -/
structure HttpResponse where
  status_code : Nat
  body : List (String × JVal)
deriving DecidableEq

/-- Python dictionary indexing `d[k]`: the value at the key, or a raised
`KeyError` when the key is absent. -/
def dictGet (k : String) : List (String × JVal) → Except String JVal
  | [] => .error ("KeyError: " ++ k)
  | (k', v) :: rest => if k' = k then .ok v else dictGet k rest

/-- Model of `SlackNotifier.send_message` (main.py lines 102-117), as a function of
the HTTP response the external `requests.post` call produces.  The code
checks `response.status_code == 200 and response.json()["ok"]`; on success
it returns `response.json()["ts"]`, otherwise it prints a diagnostic and
returns `None`.  Indexing a body that lacks the key raises (Python
`KeyError`), which `send_message` does not catch. -/
def send_message (r : HttpResponse) : Except String (Option JVal) := do
  let cond ←
    if r.status_code = 200 then do
      let okv ← dictGet "ok" r.body
      pure (pyTruthy okv)
    else
      pure false
  if cond then do
    let ts ← dictGet "ts" r.body
    pure (some ts)
  else
    -- prints an error diagnostic, then:
    pure none

/-- A chat message in the common shape both backends start from:
`{"role": ..., "content": ...}`. -/
structure Message where
  role : String
  content : String
deriving DecidableEq

/-- A chat message in the Cohere shape: `{"role": ..., "text": ...}`. -/
structure CohereMessage where
  role : String
  text : String
deriving DecidableEq

/-- Model of `AIClient.build_common_messages` (main.py lines 48-49): returns the
prompt unchanged. -/
def build_common_messages (prompt : List Message) : List Message :=
  prompt

/-- The OpenAI client object; it also holds an external SDK client built
from `OPENAI_API_KEY`, which stays outside the model. -/
structure OpenAIChatClient where
  model : Option String
deriving DecidableEq

/-- Model of `OpenAIChatClient.build_messages` (main.py lines 61-62). -/
def OpenAIChatClient.build_messages (_ : OpenAIChatClient)
    (text : List Message) : List Message :=
  build_common_messages text

/-- The Cohere client object; the external SDK client built from the key
stays outside the model. -/
structure CohereChatClient where
  api_key : Option String
  model : Option String
deriving DecidableEq

/-- Model of `CohereChatClient.build_messages` (main.py lines 78-83): renames each
field `content` of each message to `text`, keeping the role. -/
def CohereChatClient.build_messages (_ : CohereChatClient)
    (text : List Message) : List CohereMessage :=
  let common_messages := build_common_messages text
  common_messages.map (fun msg => { role := msg.role, text := msg.content })

/-- The Slack notifier object (main.py lines 96-100). -/
structure SlackNotifier where
  token : Option String
  channel : Option String
  url : String
deriving DecidableEq

/-- The Bluesky notifier object (main.py lines 120-123); the atproto
client is created per call and stays outside the model. -/
structure BlueSkyNotifier where
  password : Option String
  username : Option String
deriving DecidableEq

/-- The selected backend client held in `Application.ai_client`. -/
inductive AIClientObj where
  | openai (client : OpenAIChatClient)
  | cohere (client : CohereChatClient)
deriving DecidableEq

/-- The environment variables the application reads (`os.getenv` returns
`None` for an unset variable).  Variables consumed only by external SDK
constructors (Reddit and OpenAI credentials) stay outside the model. -/
structure EnvConfig where
  AI_ENGINE : Option String := none
  AI_MODEL : Option String := none
  COHERE_API_KEY : Option String := none
  SLACK_BOT_TOKEN : Option String := none
  SLACK_CHANNEL : Option String := none
  BLUESKY_PASSWORD : Option String := none
  BLUESKY_USERNAME : Option String := none
deriving DecidableEq

/-- Python truthiness of an `os.getenv` result (`if os.getenv(...):`):
falsy when the variable is unset or the empty string. -/
def envTruthy : Option String → Bool
  | none => false
  | some s => s ≠ ""

/-- A Python object attribute that `__init__` may or may not assign:
`none` models a never-assigned attribute, whose access raises
`AttributeError`. -/
def slackAttr (env : EnvConfig) : Option SlackNotifier :=
  if envTruthy env.SLACK_BOT_TOKEN then
    some { token := env.SLACK_BOT_TOKEN, channel := env.SLACK_CHANNEL,
           url := "https://slack.com/api/chat.postMessage" }
  else none

/-- Same for `self.bluesky_notifier` (main.py lines 145-146). -/
def blueskyAttr (env : EnvConfig) : Option BlueSkyNotifier :=
  if envTruthy env.BLUESKY_USERNAME then
    some { password := env.BLUESKY_PASSWORD, username := env.BLUESKY_USERNAME }
  else none

/-- The attributes of the application after a successful `__init__`.  An
`Option` field that is `none` means the attribute was never assigned. -/
structure Application where
  ai_client : AIClientObj
  slack_notifier : Option SlackNotifier
  bluesky_notifier : Option BlueSkyNotifier
deriving DecidableEq

/-- Model of `Application.__init__` (main.py lines 131-146): selects the backend
from `AI_ENGINE` (default `"openai"`), raising `ValueError` for any other
value, and assigns each notifier attribute only when its credential
variable is truthy.  Client construction performs no network call. -/
def Application.init (env : EnvConfig) : Except String Application :=
  let ai_engine := env.AI_ENGINE.getD "openai"
  if ai_engine = "openai" then
    .ok { ai_client := .openai { model := env.AI_MODEL },
          slack_notifier := slackAttr env, bluesky_notifier := blueskyAttr env }
  else if ai_engine = "cohere" then
    .ok { ai_client := .cohere { api_key := env.COHERE_API_KEY, model := env.AI_MODEL },
          slack_notifier := slackAttr env, bluesky_notifier := blueskyAttr env }
  else
    .error ("Unsupported AI engine: " ++ ai_engine)

/-- What the notification phase of `Application.run` observably does:
console prints, the `(text, thread_ts)` arguments of each Slack
`send_message` call, and the texts handed to the Bluesky `send_post`. -/
structure RunLog where
  prints : List String
  slack_calls : List (String × Option JVal)
  bluesky_posts : List String
deriving DecidableEq

/-- The Slack part of `Application.run` (main.py lines 164-166):
`if self.slack_notifier is not None:` raises `AttributeError` when
`__init__` never assigned the attribute; otherwise the
`send_message` is called twice — a fixed header with no thread, then the
poem threaded under the `ts` returned for the header.  `r1` and `r2` are the
HTTP responses to the two posts; a raise inside either call propagates.
Returns the list of `(text, thread_ts)` call arguments. -/
def slackDispatch (app : Application) (poem : String) (r1 r2 : HttpResponse) :
    Except String (List (String × Option JVal)) :=
  match app.slack_notifier with
  | none => .error "AttributeError: Application object has no attribute slack_notifier"
  | some _ => do
      let thread_ts ← send_message r1
      let _ ← send_message r2
      pure [("今日のポエム", (none : Option JVal)), (poem, thread_ts)]

/-- The notification phase of `Application.run` (main.py lines 164-172):
the Slack block above, then the Bluesky block, whose attribute access can
likewise raise `AttributeError`; a poem longer than 140 characters is
skipped with a console message, otherwise the poem plus the hashtag
suffix is posted. -/
def runNotify (app : Application) (poem : String) (r1 r2 : HttpResponse) :
    Except String RunLog := do
  let slackCalls ← slackDispatch app poem r1 r2
  match app.bluesky_notifier with
  | none => .error "AttributeError: Application object has no attribute bluesky_notifier"
  | some _ =>
      if poem.length > 140 then
        pure { prints := ["140文字を超えるためスキップ"],
               slack_calls := slackCalls, bluesky_posts := [] }
      else
        pure { prints := [],
               slack_calls := slackCalls,
               bluesky_posts := [poem ++ "\n#ポエム #peom"] }

/-- The fixed system instruction of the poem template (main.py lines
193-206), exactly the Python triple-quoted literal. -/
def poem_system_instruction : String :=
  "\n短いポエムを執筆します。\n必ず、日本語で 140 文字に収めてください。\n\n## ルール\n\n* テーマが与えられなかった場合は、テーマを設定します。「〇〇」と「✕✕」のようなテーマを設定してください。その場合、なるべく関連性の少ない意外性のある組み合わせの単語が望ましいです。\n* 長い文章が与えられた場合は、そこからふさわしいテーマを抽出します。\n* ポエム本文には、テーマについての深い洞察や、鋭い視点、意外性のある発想を必ず盛り込んでください。\n* テーマを文頭に使用しないでください。\n* 140 文字に収めます。\n* **返事は完成した文章のみを返します。**\n* **テーマやポエムのタイトルは絶対に返答に含めません**\n"

/-- Model of `Application.build_poem_prompt` (main.py lines 189-209): a fixed
system instruction followed by the supplied theme as the user message. -/
def build_poem_prompt (theme : String) : List Message :=
  [ { role := "system", content := poem_system_instruction },
    { role := "user", content := theme } ]

/-- The fixed system instruction of the theme-extraction template
(main.py lines 178-184). -/
def theme_system_instruction : String :=
  "\nポエムを作成するためのテーマを抽出します。\n次の文章からポエムのテーマとなりそうな単語やフレーズを設定してください。\nテーマは、単語一語や、フレーズ、あるいは、「単語A」と「単語B」のような組み合わせでも構いません。\n技術的なワードや専門用語、固有名詞などは優先してテーマに含めてください。\nテーマは一つだけ選定してください。\n"

/-- Model of `Application.build_theme_prompt` (main.py lines 174-187). -/
def build_theme_prompt (text : String) : List Message :=
  [ { role := "system", content := theme_system_instruction },
    { role := "user", content := text } ]

/-- A post as returned by the forum API (a read-only snapshot): `created`
is the already-formatted timestamp (the `datetime` conversion of
`post.created_utc` is external), and `comments` holds the bodies of the
comments that survived the `isinstance(..., Comment)` filter. -/
structure RPost where
  title : String
  url : String
  created : String
  score : Int
  num_comments : Int
  selftext : String
  comments : List String
deriving DecidableEq

/-- The per-post tail of the assembled block: everything of
`post_text` (main.py lines 34-42) after `"タイトル: " + title`. -/
def postTail (p : RPost) : String :=
  "\nURL: " ++ p.url ++ "\n投稿日時: " ++ p.created ++ "\n" ++
  "スコア: " ++ toString p.score ++ "\nコメント数: " ++ toString p.num_comments ++
  "\n本文:\n" ++ p.selftext ++ "\n" ++
  "コメントリスト:\n" ++ String.intercalate "\n" p.comments

/-- The `post_text` block built for one post (main.py lines 34-42). -/
def postText (p : RPost) : String :=
  "タイトル: " ++ p.title ++ postTail p

/-- Model of `RedditClient.get_hot_posts_with_comments` (main.py lines 28-44), as a
function of the posts the external API call returns: accumulates each
block of each post followed by a blank line into `all_posts_text`. -/
def get_hot_posts_with_comments (posts : List RPost) : String :=
  posts.foldl (fun all_posts_text post => all_posts_text ++ (postText post ++ "\n\n")) ""

/-- Whether `p` occurs at the start of `s` (substring-occurrence helper
for stating the title-containment property). -/
def leadsWith : List Char → List Char → Bool
  | [], _ => true
  | _ :: _, [] => false
  | a :: as, b :: bs => a == b && leadsWith as bs

/-- Number of positions of `s` at which the nonempty pattern `p` occurs
as a contiguous substring (overlapping occurrences all counted). -/
def occCount (p : List Char) : List Char → Nat
  | [] => 0
  | c :: rest => (if leadsWith p (c :: rest) then 1 else 0) + occCount p rest

/-- The patterns `ts` occur in `s`, in order, at pairwise disjoint
positions: `s` splits as alternating junk and the patterns in sequence. -/
def containsInOrder (s : List Char) : List (List Char) → Prop
  | [] => True
  | t :: ts => ∃ a b, s = a ++ t ++ b ∧ containsInOrder b ts

/-- Model of `int(...)` on a command-line argument: optional surrounding
whitespace and sign, then decimal digits, else a raised `ValueError`.
(Simplified model of the Python builtin, which is external.) -/
def digitsToNat (cs : List Char) : Option Nat :=
  if cs ≠ [] ∧ cs.all Char.isDigit then
    some (cs.foldl (fun a c => a * 10 + (c.toNat - 48)) 0)
  else none

/-- See `digitsToNat`; the `Except.error` branch is the `ValueError`. -/
def pyInt (s : String) : Except String Int :=
  let bad : Except String Int :=
    .error ("ValueError: invalid literal for int() with base 10: " ++ s)
  match s.trim.data with
  | '-' :: rest =>
      match digitsToNat rest with
      | some n => .ok (-(n : Int))
      | none => bad
  | '+' :: rest =>
      match digitsToNat rest with
      | some n => .ok (n : Int)
      | none => bad
  | cs =>
      match digitsToNat cs with
      | some n => .ok (n : Int)
      | none => bad

deriving instance DecidableEq for Except

/-- What the `__main__` entry point decides to do. -/
inductive MainAction where
  | usage (exit_code : Nat)
  | runApp (theme : String) (limit : Except String Int)
deriving DecidableEq

/-- The `__main__` block (main.py lines 212-220): with at least one
positional argument (`len(sys.argv) > 1`) it constructs the application
and runs it with `sys.argv[1]` and `int(sys.argv[2])` (default 3);
otherwise it prints a usage message and exits with code 1, constructing
nothing. -/
def mainEntry (argv : List String) : MainAction :=
  if argv.length > 1 then
    .runApp (argv.getD 1 "")
      (if argv.length > 2 then pyInt (argv.getD 2 "") else .ok 3)
  else
    -- prints "ポエムのテーマをコマンドライン引数として指定してください。"
    .usage 1

/-- C2: any `AI_ENGINE` value outside `{openai, cohere}` makes
construction fail with a `ValueError` naming the unsupported engine (no
network call is modelled anywhere in construction); an unset flag selects
the OpenAI backend. -/
theorem C2_backend_selection (env : EnvConfig) :
    (∀ e, env.AI_ENGINE = some e → e ≠ "openai" → e ≠ "cohere" →
        Application.init env = .error ("Unsupported AI engine: " ++ e))
    ∧ (env.AI_ENGINE = none →
        Application.init env
          = .ok { ai_client := .openai { model := env.AI_MODEL },
                  slack_notifier := slackAttr env,
                  bluesky_notifier := blueskyAttr env }) := by
  constructor
  · intro e he h1 h2
    simp [Application.init, he, h1, h2]
  · intro he
    simp [Application.init, he]

/-- Witness for C2 at the engine value `"llama"` and at an empty
environment. -/
theorem C2_backend_selection_witness :
    Application.init { AI_ENGINE := some "llama" }
      = .error ("Unsupported AI engine: " ++ "llama")
    ∧ Application.init {}
      = .ok { ai_client := .openai { model := none },
              slack_notifier := slackAttr {}, bluesky_notifier := blueskyAttr {} } :=
  ⟨(C2_backend_selection _).1 "llama" rfl (by decide) (by decide),
   (C2_backend_selection _).2 rfl⟩

/-- C3, counterexample to the claim as stated: a 200 response whose body
has no `ok` key at all (so the body certainly does not contain
`ok: true`) makes `send_message` raise a `KeyError` instead of returning
null. -/
theorem C3_counterexample :
    dictGet "ok" [("ts", JVal.str "1")] = .error "KeyError: ok"
    ∧ send_message ⟨200, [("ts", JVal.str "1")]⟩ = .error "KeyError: ok"
    ∧ ¬ send_message ⟨200, [("ts", JVal.str "1")]⟩ = .ok none := by
  refine ⟨rfl, rfl, by decide⟩

/-- C3, amended: a non-200 response, or a 200 response whose body maps
`ok` to a falsy value, makes `send_message` return null without raising;
a 200 response whose body maps `ok` to a truthy value and has a `ts` key
returns that `ts` value.  (A 200 body lacking the `ok` key — or lacking
`ts` when `ok` is truthy — raises `KeyError`.) -/
theorem C3_chat_sink (r : HttpResponse) :
    (r.status_code ≠ 200 → send_message r = .ok none)
    ∧ (∀ v, r.status_code = 200 → dictGet "ok" r.body = .ok v →
        pyTruthy v = false → send_message r = .ok none)
    ∧ (∀ v ts, r.status_code = 200 → dictGet "ok" r.body = .ok v →
        pyTruthy v = true → dictGet "ts" r.body = .ok ts →
        send_message r = .ok (some ts)) := by
  refine ⟨?_, ?_, ?_⟩
  · intro h
    simp only [send_message, h, if_false, ite_false, if_neg]
    rfl
  · intro v h hok hv
    simp [send_message, h, hok, hv, pure, Except.pure, bind, Except.bind]
  · intro v ts h hok hv hts
    simp [send_message, h, hok, hv, hts, pure, Except.pure, bind, Except.bind]

/-- Witness for C3 on a 404 response, a 200 `ok: false` response, and a
200 `ok: true` response carrying `ts`. -/
theorem C3_chat_sink_witness :
    send_message ⟨404, []⟩ = .ok none
    ∧ send_message ⟨200, [("ok", JVal.bool false)]⟩ = .ok none
    ∧ send_message ⟨200, [("ok", JVal.bool true), ("ts", JVal.str "1")]⟩
        = .ok (some (JVal.str "1")) :=
  ⟨(C3_chat_sink _).1 (by decide),
   (C3_chat_sink _).2.1 (JVal.bool false) rfl rfl rfl,
   (C3_chat_sink _).2.2 (JVal.bool true) (JVal.str "1") rfl rfl rfl rfl⟩

/-- C5: the final message of the poem prompt is the user message holding
exactly the supplied text, and everything before it is the one fixed
system instruction, the same for every input. -/
theorem C5_poem_prompt (theme : String) :
    (build_poem_prompt theme).getLast? = some { role := "user", content := theme }
    ∧ (build_poem_prompt theme).dropLast
        = [{ role := "system", content := poem_system_instruction }] := by
  exact ⟨rfl, rfl⟩

/-- C7: the OpenAI variant returns the common message sequence unchanged;
the Cohere variant returns a sequence of the same length whose element at
every position keeps the role and carries the original content under
`text`. -/
theorem C7_message_adapters (oc : OpenAIChatClient) (cc : CohereChatClient)
    (ms : List Message) :
    oc.build_messages ms = ms
    ∧ (cc.build_messages ms).length = ms.length
    ∧ ∀ i, (cc.build_messages ms).get? i
        = (ms.get? i).map (fun m => { role := m.role, text := m.content }) := by
  refine ⟨rfl, ?_, ?_⟩
  · simp [CohereChatClient.build_messages, build_common_messages]
  · intro i
    simp [CohereChatClient.build_messages, build_common_messages]

/-- C8: with no positional argument the entry point prints usage and
exits with code 1 (the `runApp` action, which alone constructs the
application, is not taken); with exactly one positional argument the
limit defaults to 3. -/
theorem C8_entry (argv : List String) :
    (argv.length ≤ 1 → mainEntry argv = .usage 1)
    ∧ (argv.length = 2 → mainEntry argv = .runApp (argv.getD 1 "") (.ok 3)) := by
  constructor
  · intro h
    rw [mainEntry, if_neg (by omega)]
  · intro h
    rw [mainEntry, if_pos (by omega), if_neg (by omega)]

/-- Witness for C8 on the bare program name and on one theme argument. -/
theorem C8_entry_witness :
    mainEntry ["main.py"] = .usage 1
    ∧ mainEntry ["main.py", "海"] = .runApp "海" (.ok 3) :=
  ⟨(C8_entry _).1 (by decide), (C8_entry ["main.py", "海"]).2 rfl⟩

/-- C10: with the Slack notifier attribute assigned and both HTTP calls
returning normally, the Slack phase of the run makes exactly two `send_message`
calls: the fixed header with no thread reference, then the poem threaded
under whatever the first call returned (`some ts` when the header post
succeeded, `none` when it failed). -/
theorem C10_slack_thread (app : Application) (poem : String)
    (r1 r2 : HttpResponse) (t1 t2 : Option JVal)
    (hs : app.slack_notifier.isSome = true)
    (h1 : send_message r1 = .ok t1) (h2 : send_message r2 = .ok t2) :
    slackDispatch app poem r1 r2 = .ok [("今日のポエム", none), (poem, t1)] := by
  obtain ⟨s, hs'⟩ := Option.isSome_iff_exists.mp hs
  simp [slackDispatch, hs', h1, h2, pure, Except.pure, bind, Except.bind]

/-- Witness for C10: a successful header post threads the poem under the
returned `ts`. -/
theorem C10_slack_thread_witness :
    slackDispatch
        { ai_client := .openai { model := none },
          slack_notifier := some { token := some "t", channel := some "c",
                                   url := "https://slack.com/api/chat.postMessage" },
          bluesky_notifier := none }
        "p" ⟨200, [("ok", JVal.bool true), ("ts", JVal.str "111")]⟩ ⟨404, []⟩
      = .ok [("今日のポエム", none), ("p", some (JVal.str "111"))] :=
  C10_slack_thread _ _ _ _ (some (JVal.str "111")) none rfl rfl rfl

/-- C1: a poem longer than 140 characters makes the run skip the Bluesky
sink — no `send_post` happens, the skip message is printed, and the run
still ends normally (an `Except.ok` result, not an error). -/
theorem C1_length_gate (app : Application) (poem : String)
    (r1 r2 : HttpResponse) (t1 t2 : Option JVal)
    (hs : app.slack_notifier.isSome = true)
    (hb : app.bluesky_notifier.isSome = true)
    (h1 : send_message r1 = .ok t1) (h2 : send_message r2 = .ok t2)
    (hlen : poem.length > 140) :
    runNotify app poem r1 r2
      = .ok { prints := ["140文字を超えるためスキップ"],
              slack_calls := [("今日のポエム", none), (poem, t1)],
              bluesky_posts := [] } := by
  obtain ⟨b, hb'⟩ := Option.isSome_iff_exists.mp hb
  have hcalls := C10_slack_thread app poem r1 r2 t1 t2 hs h1 h2
  simp [runNotify, hcalls, hb', hlen, pure, Except.pure, bind, Except.bind]

/-- Witness for C1: a 141-character poem is gated off. -/
theorem C1_length_gate_witness :
    runNotify
        { ai_client := .openai { model := none },
          slack_notifier := some { token := some "t", channel := some "c",
                                   url := "https://slack.com/api/chat.postMessage" },
          bluesky_notifier := some { password := none, username := some "u" } }
        (String.mk (List.replicate 141 'a')) ⟨404, []⟩ ⟨404, []⟩
      = .ok { prints := ["140文字を超えるためスキップ"],
              slack_calls := [("今日のポエム", none),
                              (String.mk (List.replicate 141 'a'), none)],
              bluesky_posts := [] } :=
  C1_length_gate _ _ _ _ none none rfl rfl rfl rfl (by decide)

/-- C9: the 140-character gate reads the bare poem, and the text actually
posted to Bluesky is the poem with the hashtag suffix appended afterwards
— so a poem that passes the gate can still produce a submitted text
longer than 140 characters (e.g. any 140-character poem). -/
theorem C9_gate_before_suffix :
    (∀ (app : Application) (poem : String) (r1 r2 : HttpResponse)
        (t1 t2 : Option JVal),
        app.slack_notifier.isSome = true → app.bluesky_notifier.isSome = true →
        send_message r1 = .ok t1 → send_message r2 = .ok t2 →
        poem.length ≤ 140 →
        runNotify app poem r1 r2
          = .ok { prints := [],
                  slack_calls := [("今日のポエム", none), (poem, t1)],
                  bluesky_posts := [poem ++ "\n#ポエム #peom"] })
    ∧ (∃ poem : String, poem.length ≤ 140
        ∧ (poem ++ "\n#ポエム #peom").length > 140) := by
  constructor
  · intro app poem r1 r2 t1 t2 hs hb h1 h2 hlen
    obtain ⟨b, hb'⟩ := Option.isSome_iff_exists.mp hb
    have hcalls := C10_slack_thread app poem r1 r2 t1 t2 hs h1 h2
    have hgate : ¬ poem.length > 140 := by omega
    simp [runNotify, hcalls, hb', hgate, pure, Except.pure, bind, Except.bind]
  · exact ⟨String.mk (List.replicate 140 'a'), by decide, by decide⟩

/-- Witness for C9: a 140-character poem passes the gate and the posted
text is the poem plus the 11-character hashtag suffix. -/
theorem C9_gate_before_suffix_witness :
    runNotify
        { ai_client := .openai { model := none },
          slack_notifier := some { token := some "t", channel := some "c",
                                   url := "https://slack.com/api/chat.postMessage" },
          bluesky_notifier := some { password := none, username := some "u" } }
        (String.mk (List.replicate 140 'a')) ⟨404, []⟩ ⟨404, []⟩
      = .ok { prints := [],
              slack_calls := [("今日のポエム", none),
                              (String.mk (List.replicate 140 'a'), none)],
              bluesky_posts := [String.mk (List.replicate 140 'a') ++ "\n#ポエム #peom"] } :=
  C9_gate_before_suffix.1 _ _ _ _ none none rfl rfl rfl rfl (by decide)

/-- C4 is a code bug, demonstrated here: when the credential
variable is absent, `__init__` (lines 143-146) never assigns that
notifier attribute, yet `run` (lines 164, 167) unconditionally reads it —
so the run raises `AttributeError` instead of skipping the sink.  Both
directions are shown: Slack credentials absent, and Bluesky credentials
absent with Slack working. -/
theorem C4_missing_attr_bug :
    Application.init { BLUESKY_USERNAME := some "alice" }
      = .ok { ai_client := .openai { model := none },
              slack_notifier := none,
              bluesky_notifier := some { password := none, username := some "alice" } }
    ∧ runNotify
        { ai_client := .openai { model := none },
          slack_notifier := none,
          bluesky_notifier := some { password := none, username := some "alice" } }
        "poem" ⟨404, []⟩ ⟨404, []⟩
      = .error "AttributeError: Application object has no attribute slack_notifier"
    ∧ Application.init { SLACK_BOT_TOKEN := some "t", SLACK_CHANNEL := some "c" }
      = .ok { ai_client := .openai { model := none },
              slack_notifier := some { token := some "t", channel := some "c",
                                       url := "https://slack.com/api/chat.postMessage" },
              bluesky_notifier := none }
    ∧ runNotify
        { ai_client := .openai { model := none },
          slack_notifier := some { token := some "t", channel := some "c",
                                   url := "https://slack.com/api/chat.postMessage" },
          bluesky_notifier := none }
        "poem" ⟨404, []⟩ ⟨404, []⟩
      = .error "AttributeError: Application object has no attribute bluesky_notifier" := by
  refine ⟨rfl, rfl, rfl, rfl⟩

/-- The accumulator of the `all_posts_text` fold factors out to the
front. -/
theorem ghpwc_foldl_data (posts : List RPost) (acc : String) :
    (posts.foldl (fun all_posts_text post =>
        all_posts_text ++ (postText post ++ "\n\n")) acc).data
      = acc.data
        ++ (posts.map (fun p => (postText p).data ++ "\n\n".data)).flatten := by
  induction posts generalizing acc with
  | nil => simp
  | cons p ps ih =>
      simp [List.foldl_cons, ih, String.data_append, List.append_assoc]

/-- Prepending junk preserves an in-order occurrence list. -/
theorem containsInOrder_append_left (x : List Char) {s : List Char}
    {ts : List (List Char)} (h : containsInOrder s ts) :
    containsInOrder (x ++ s) ts := by
  cases ts with
  | nil => trivial
  | cons t ts =>
      obtain ⟨a, b, rfl, hb⟩ := h
      exact ⟨x ++ a, b, by simp [List.append_assoc], hb⟩

/-- C6, counterexample to exactly-once counting: one post whose title is
`"ル: ル: "` and whose every other field is empty or zero.  The title is
the only title (pairwise distinctness is trivial), it occurs in no other
field of the post data (`""`, `"0"`, no comments), and it occurs once in
the title field itself — yet the assembled text contains it at two
positions, because the title overlaps the fixed `"タイトル: "` label at
the concatenation boundary. -/
theorem C6_counterexample :
    occCount "ル: ル: ".data
        (get_hot_posts_with_comments
          [{ title := "ル: ル: ", url := "", created := "", score := 0,
             num_comments := 0, selftext := "", comments := [] }]).data = 2
    ∧ ¬ occCount "ル: ル: ".data
        (get_hot_posts_with_comments
          [{ title := "ル: ル: ", url := "", created := "", score := 0,
             num_comments := 0, selftext := "", comments := [] }]).data = 1
    ∧ occCount "ル: ル: ".data ("" : String).data = 0
    ∧ occCount "ル: ル: ".data (toString (0 : Int)).data = 0
    ∧ occCount "ル: ル: ".data (String.intercalate "\n" ([] : List String)).data = 0
    ∧ occCount "ル: ル: ".data "ル: ル: ".data = 1 := by
  refine ⟨by decide, by decide, by decide, by decide, by decide, by decide⟩

/-- C6, amended: for every list of fetched posts the assembled text
contains the titles in input order — it splits as alternating junk and
the titles in sequence, so each title occurs at least once and the
occurrences respect the input order.  (Exactly-once counting fails in
general, see the counterexample: a title can additionally overlap the
fixed field labels at a concatenation boundary.) -/
theorem C6_titles_in_order (posts : List RPost) :
    containsInOrder (get_hot_posts_with_comments posts).data
      (posts.map (fun p => p.title.data)) := by
  induction posts with
  | nil => trivial
  | cons p ps ih =>
      have hdata : (get_hot_posts_with_comments (p :: ps)).data
          = "タイトル: ".data ++ p.title.data
            ++ ((postTail p).data
                ++ ("\n\n".data ++ (get_hot_posts_with_comments ps).data)) := by
        have h1 := ghpwc_foldl_data ps ("" ++ (postText p ++ "\n\n"))
        have h2 := ghpwc_foldl_data ps ""
        simp only [get_hot_posts_with_comments, List.foldl_cons] at *
        simp only [List.nil_append] at h2
        rw [h1, ← h2]
        simp [postText, String.data_append, List.append_assoc]
      exact ⟨"タイトル: ".data, _, hdata,
        containsInOrder_append_left _ (containsInOrder_append_left _ ih)⟩
